import Mathlib

/-!
Verification of the clipper tray shell (src-tauri/src/core/tray.rs,
src-tauri/src/core/window_handler.rs, src-tauri/src/lib.rs).

The Rust code is glue over the Tauri host framework.  We embed it shallowly:
each fallible host primitive becomes an input (a `Bool` saying whether that
call succeeds, or an `Option` for a registry lookup), and each event-handler
closure becomes a pure function from the event and those inputs to the list
of observable effects it performs (window operations, event emissions, log
lines, spawned delay workers), in the order the Rust code performs them.
-/

namespace Clipper

/-- Window operations invoked on the main webview window. -/
inductive WinOp where
  | show
  | unminimize
  | setFocus
  | setAlwaysOnTop (b : Bool)
  | hide
deriving DecidableEq, Repr

/-- Observable effects of a handler invocation, in program order.
`winOp op ok` is an attempted window operation together with the host's
result of that attempt; `emit` is `app.emit` with its unit payload;
`log` is a `println!` line (Rust format arguments are elided);
`spawnSleepSetTopFalse d` is `std::thread::spawn` of a worker that sleeps
`d` milliseconds and then calls `set_always_on_top(false)`. -/
inductive Effect where
  | winOp (op : WinOp) (ok : Bool)
  | emit (event : String) (payload : Unit)
  | log (msg : String)
  | spawnSleepSetTopFalse (delayMs : Nat)
deriving DecidableEq, Repr

/-- The host's results for the window operations attempted on the main
window: `true` means the Tauri call returns `Ok`, `false` means `Err`.
A value of this type plays the role of the window handle obtained from
`get_webview_window`. -/
structure WindowResults where
  showOk : Bool
  unminimizeOk : Bool
  setFocusOk : Bool
  setAlwaysOnTopOk : Bool
  hideOk : Bool
deriving DecidableEq, Repr

/-- Projection keeping only window operations and spawned always-on-top
clear workers, dropping log lines and emissions. -/
def isWindowOp : Effect → Bool
  | Effect.winOp _ _ => true
  | Effect.spawnSleepSetTopFalse _ => true
  | _ => false

def winOps (effs : List Effect) : List Effect :=
  effs.filter isWindowOp

/-- Projection keeping only `emit` effects. -/
def isEmit : Effect → Bool
  | Effect.emit _ _ => true
  | _ => false

def emits (effs : List Effect) : List Effect :=
  effs.filter isEmit

/-- Number of hide attempts in a trace. -/
def isHideAttempt : Effect → Bool
  | Effect.winOp WinOp.hide _ => true
  | _ => false

def countHide (effs : List Effect) : Nat :=
  (effs.filter isHideAttempt).length

/-- Number of spawned delayed always-on-top-clear workers in a trace. -/
def isSpawn : Effect → Bool
  | Effect.spawnSleepSetTopFalse _ => true
  | _ => false

def countSpawn (effs : List Effect) : Nat :=
  (effs.filter isSpawn).length

/-- The `on_menu_event` closure of tray.rs, lines 20-78.  Input: the
selected menu identifier `event.id` and the result of
`app.get_webview_window("main")` at handling time.  Output: the effect
trace.  The Rust `match event.id.as_ref()` on string literals is a
sequential comparison chain. -/
def on_menu_event (eventId : String) (mainWindow : Option WindowResults) : List Effect :=
  if eventId = "quit" then
    [Effect.log "Quit menu clicked",
     Effect.emit "exit-requested" ()]
  else if eventId = "show" then
    Effect.log "Show menu clicked" ::
      (match mainWindow with
       | some window =>
         [Effect.winOp WinOp.show window.showOk,
          Effect.log (if window.showOk then "Window show called successfully"
                      else "Failed to call show on window"),
          Effect.winOp WinOp.unminimize window.unminimizeOk,
          Effect.log (if window.unminimizeOk then "Window unminimized"
                      else "Failed to unminimize window"),
          Effect.winOp WinOp.setFocus window.setFocusOk,
          Effect.log (if window.setFocusOk then "Window focus set successfully"
                      else "Failed to set focus"),
          Effect.winOp (WinOp.setAlwaysOnTop true) window.setAlwaysOnTopOk,
          Effect.log (if window.setAlwaysOnTopOk then "Window set always on top"
                      else "Failed to set always on top"),
          Effect.spawnSleepSetTopFalse 100]
       | none => [Effect.log "Main window not found"])
  else if eventId = "hide" then
    Effect.log "Hide menu clicked" ::
      (match mainWindow with
       | some window =>
         [Effect.winOp WinOp.hide window.hideOk,
          Effect.log (if window.hideOk then "Window hidden successfully"
                      else "Failed to hide window")]
       | none => [Effect.log "Main window not found"])
  else
    [Effect.log "Unknown menu item clicked"]

/-- Mouse buttons of `tauri::tray::MouseButton`. -/
inductive MouseButton where
  | Left
  | Right
  | Middle
deriving DecidableEq, Repr

/-- Button states of `tauri::tray::MouseButtonState`. -/
inductive MouseButtonState where
  | Up
  | Down
deriving DecidableEq, Repr

/-- Tray icon events of `tauri::tray::TrayIconEvent` (non-mouse payload
fields such as position and rect are elided: the code ignores them). -/
inductive TrayIconEvent where
  | Click (button : MouseButton) (buttonState : MouseButtonState)
  | DoubleClick (button : MouseButton)
  | Enter
  | Move
  | Leave
deriving DecidableEq, Repr

/-- The `on_tray_icon_event` closure of tray.rs, lines 79-121.  Only a
left-button release enters the `if let`; every other event falls through
with no effect at all. -/
def on_tray_icon_event (event : TrayIconEvent) (mainWindow : Option WindowResults) : List Effect :=
  match event with
  | TrayIconEvent.Click MouseButton.Left MouseButtonState.Up =>
    (match mainWindow with
     | some window =>
       [Effect.log "Tray icon clicked - attempting to show window",
        Effect.winOp WinOp.show window.showOk,
        Effect.log (if window.showOk then "Tray click - window show called"
                    else "Failed to show window from tray"),
        Effect.winOp WinOp.unminimize window.unminimizeOk,
        Effect.log (if window.unminimizeOk then "Tray click - window unminimized"
                    else "Failed to unminimize from tray"),
        Effect.winOp WinOp.setFocus window.setFocusOk,
        Effect.log (if window.setFocusOk then "Tray click - window focus set"
                    else "Failed to set focus from tray"),
        Effect.winOp (WinOp.setAlwaysOnTop true) window.setAlwaysOnTopOk,
        Effect.log (if window.setAlwaysOnTopOk then "Tray click - window set always on top"
                    else "Failed to set always on top from tray"),
        Effect.spawnSleepSetTopFalse 100]
     | none => [Effect.log "Main window not found on tray click"])
  | _ => []

/-- A window handle whose every operation succeeds, for concrete witnesses. -/
def defaultWin : WindowResults :=
  { showOk := true, unminimizeOk := true, setFocusOk := true,
    setAlwaysOnTopOk := true, hideOk := true }

/-- C4: selecting the "quit" menu entry emits exactly one process-wide
"exit-requested" notification with unit (no) payload and performs zero
window operations, for every state of the main-window lookup. -/
theorem quit_emits_exit_requested_once (mainWindow : Option WindowResults) :
    emits (on_menu_event "quit" mainWindow) = [Effect.emit "exit-requested" ()] ∧
    winOps (on_menu_event "quit" mainWindow) = [] := by
  exact ⟨rfl, rfl⟩

/-- C5: when the main-window lookup returns nothing, the "show" and "hide"
menu selections perform zero window operations and emit nothing; the whole
trace is log lines only, so no error reaches the caller. -/
theorem show_hide_noop_when_window_missing (eventId : String)
    (h : eventId = "show" ∨ eventId = "hide") :
    winOps (on_menu_event eventId none) = [] ∧
    emits (on_menu_event eventId none) = [] := by
  rcases h with rfl | rfl
  · exact ⟨rfl, rfl⟩
  · exact ⟨rfl, rfl⟩

theorem show_hide_noop_when_window_missing_witness :
    winOps (on_menu_event "show" none) = [] ∧
    emits (on_menu_event "show" none) = [] :=
  show_hide_noop_when_window_missing "show" (Or.inl rfl)

/-- C3: for every state of the window registry, the "show" menu branch and a
left-button-release tray-icon click perform the identical sequence of window
operations; when the window is found that sequence is show, un-minimize,
set focus, always-on-top true, then a spawned worker clearing always-on-top
after a 100 ms delay. -/
theorem show_menu_and_tray_click_equivalent (mainWindow : Option WindowResults) :
    winOps (on_menu_event "show" mainWindow) =
      winOps (on_tray_icon_event
        (TrayIconEvent.Click MouseButton.Left MouseButtonState.Up) mainWindow) ∧
    (∀ w : WindowResults, mainWindow = some w →
      winOps (on_menu_event "show" mainWindow) =
        [Effect.winOp WinOp.show w.showOk,
         Effect.winOp WinOp.unminimize w.unminimizeOk,
         Effect.winOp WinOp.setFocus w.setFocusOk,
         Effect.winOp (WinOp.setAlwaysOnTop true) w.setAlwaysOnTopOk,
         Effect.spawnSleepSetTopFalse 100]) := by
  constructor
  · cases mainWindow <;> rfl
  · rintro w rfl
    rfl

theorem show_menu_and_tray_click_equivalent_witness :
    winOps (on_menu_event "show" (some defaultWin)) =
      winOps (on_tray_icon_event
        (TrayIconEvent.Click MouseButton.Left MouseButtonState.Up) (some defaultWin)) ∧
    winOps (on_menu_event "show" (some defaultWin)) =
      [Effect.winOp WinOp.show true,
       Effect.winOp WinOp.unminimize true,
       Effect.winOp WinOp.setFocus true,
       Effect.winOp (WinOp.setAlwaysOnTop true) true,
       Effect.spawnSleepSetTopFalse 100] :=
  ⟨(show_menu_and_tray_click_equivalent (some defaultWin)).1,
   (show_menu_and_tray_click_equivalent (some defaultWin)).2 defaultWin rfl⟩

/-- C7: a menu identifier outside the three known ones, and any tray-icon
event other than a left-button release, are silent no-ops: no window
operation and no emission. -/
theorem unknown_menu_and_nonleft_click_noop (eventId : String)
    (mainWindow : Option WindowResults)
    (hq : eventId ≠ "quit") (hs : eventId ≠ "show") (hh : eventId ≠ "hide")
    (ev : TrayIconEvent)
    (hev : ev ≠ TrayIconEvent.Click MouseButton.Left MouseButtonState.Up) :
    winOps (on_menu_event eventId mainWindow) = [] ∧
    emits (on_menu_event eventId mainWindow) = [] ∧
    winOps (on_tray_icon_event ev mainWindow) = [] ∧
    emits (on_tray_icon_event ev mainWindow) = [] := by
  have hmenu : on_menu_event eventId mainWindow = [Effect.log "Unknown menu item clicked"] := by
    unfold on_menu_event
    rw [if_neg hq, if_neg hs, if_neg hh]
  have htray : on_tray_icon_event ev mainWindow = [] := by
    cases ev with
    | Click b s =>
      cases b <;> cases s <;> first
        | exact absurd rfl hev
        | rfl
    | DoubleClick b => rfl
    | Enter => rfl
    | Move => rfl
    | Leave => rfl
  rw [hmenu, htray]
  exact ⟨rfl, rfl, rfl, rfl⟩

theorem unknown_menu_and_nonleft_click_noop_witness :
    winOps (on_menu_event "settings" (some defaultWin)) = [] ∧
    emits (on_menu_event "settings" (some defaultWin)) = [] ∧
    winOps (on_tray_icon_event (TrayIconEvent.Click MouseButton.Right MouseButtonState.Up)
      (some defaultWin)) = [] ∧
    emits (on_tray_icon_event (TrayIconEvent.Click MouseButton.Right MouseButtonState.Up)
      (some defaultWin)) = [] :=
  unknown_menu_and_nonleft_click_noop "settings" (some defaultWin)
    (by decide) (by decide) (by decide)
    (TrayIconEvent.Click MouseButton.Right MouseButtonState.Up) (by decide)

/-- A tray menu item as built by `MenuItem::with_id(app, id, text, enabled, None)`. -/
structure MenuItem where
  id : String
  text : String
  enabled : Bool
deriving DecidableEq, Repr

/-- A tray menu as built by `Menu::with_items`. -/
structure Menu where
  items : List MenuItem
deriving DecidableEq, Repr

/-- `quit_i` of tray.rs line 11. -/
def quit_i : MenuItem := { id := "quit", text := "退出", enabled := true }

/-- `show_i` of tray.rs line 12. -/
def show_i : MenuItem := { id := "show", text := "显示", enabled := true }

/-- `hide_i` of tray.rs line 13. -/
def hide_i : MenuItem := { id := "hide", text := "隐藏", enabled := true }

/-- The menu of tray.rs line 15: `Menu::with_items(app, &[&show_i, &hide_i, &quit_i])`. -/
def trayMenu : Menu := { items := [show_i, hide_i, quit_i] }

/-- A default window icon.  Its content never matters to the code; only its
presence does, through the `unwrap` on `default_window_icon()`. -/
structure Icon where
  resource : Nat
deriving DecidableEq, Repr

/-- The host-side outcomes of the fallible primitives `create_tray` calls:
whether `MenuItem::with_id` succeeds for a given identifier, whether
`Menu::with_items` succeeds, the result of `app.default_window_icon()`,
and whether `TrayIconBuilder::build` succeeds. -/
structure TrayHost where
  menuItemOk : String → Bool
  menuOk : Bool
  defaultWindowIcon : Option Icon
  trayIconBuildOk : Bool

/-- Outcome of `create_tray`.  The Rust function returns
`tauri::Result<()>`; `ok` additionally records the menu that was handed to
the tray icon builder so theorems can inspect it, `err` carries the failed
primitive, and `panics` is divergence through the `unwrap` on
`default_window_icon()`. -/
inductive TrayResult where
  | ok (menu : Menu)
  | err (source : String)
  | panics
deriving DecidableEq, Repr

def TrayResult.isErr : TrayResult → Bool
  | TrayResult.err _ => true
  | _ => false

/-- `create_tray` of tray.rs lines 10-125.  The four `?`-propagated menu
constructions happen first, in source order; then the builder chain unwraps
the default window icon (panicking when it is absent) and finally the
result of `TrayIconBuilder::build` is discarded by `let _ =`, so the
function ends in `Ok(())` whether or not the build succeeded. -/
def create_tray (host : TrayHost) : TrayResult :=
  if !(host.menuItemOk "quit") then TrayResult.err "MenuItem quit" else
  if !(host.menuItemOk "show") then TrayResult.err "MenuItem show" else
  if !(host.menuItemOk "hide") then TrayResult.err "MenuItem hide" else
  if !(host.menuOk) then TrayResult.err "Menu with_items" else
  match host.defaultWindowIcon with
  | none => TrayResult.panics
  | some _ =>
    let _discardedBuild : Bool := host.trayIconBuildOk
    TrayResult.ok trayMenu

/-- Host-side inputs of `run` in lib.rs: the tray host plus the debug-build
flag and the outcome of registering the log plugin (its `?` is the other
propagation point inside setup). -/
structure AppHost where
  tray : TrayHost
  debugAssertions : Bool
  logPluginOk : Bool

/-- Outcome of `run` in lib.rs: either the event loop is entered or the
process terminates with a fatal message through the final `expect`. -/
inductive RunOutcome where
  | running
  | fatalExit (msg : String)
deriving DecidableEq, Repr

/-- `run` of lib.rs lines 11-40.  The setup closure registers the log
plugin in debug builds, then calls `create_tray` and propagates its error;
any setup error or panic terminates the process via
`.expect("error while running tauri application")`. -/
def run (host : AppHost) : RunOutcome :=
  if host.debugAssertions && !host.logPluginOk then
    RunOutcome.fatalExit "error while running tauri application"
  else
    match create_tray host.tray with
    | TrayResult.err _ => RunOutcome.fatalExit "error while running tauri application"
    | TrayResult.panics => RunOutcome.fatalExit "setup panicked"
    | TrayResult.ok _ => RunOutcome.running

/-- A host on which every primitive succeeds. -/
def okHost : TrayHost :=
  { menuItemOk := fun _ => true, menuOk := true,
    defaultWindowIcon := some { resource := 0 }, trayIconBuildOk := true }

/-- A host on which everything succeeds except `TrayIconBuilder::build`. -/
def buildFailHost : TrayHost :=
  { menuItemOk := fun _ => true, menuOk := true,
    defaultWindowIcon := some { resource := 0 }, trayIconBuildOk := false }

/-- A host with no default window icon whose `MenuItem::with_id` calls fail. -/
def noIconFailingMenuHost : TrayHost :=
  { menuItemOk := fun _ => false, menuOk := true,
    defaultWindowIcon := none, trayIconBuildOk := true }

/-- C1 counterexample: on a host where constructing the tray icon fails
(`TrayIconBuilder::build` returns an error) but menu construction succeeds,
`create_tray` still returns `Ok`, refuting the claim that every failure to
construct the tray icon makes `create_tray` return an error. -/
theorem tray_icon_build_failure_returns_ok :
    buildFailHost.trayIconBuildOk = false ∧
    create_tray buildFailHost = TrayResult.ok trayMenu := by
  exact ⟨rfl, rfl⟩

/-- C1 amended: failures of the four menu constructions are propagated out
of `create_tray` and abort startup with the fatal message, but the result
of building the tray icon itself is discarded (`let _ =`), so `create_tray`
does not depend on it and returns `Ok` whenever menu construction succeeds
and a default window icon exists. -/
theorem create_tray_error_propagation (host : AppHost) :
    ((host.tray.menuItemOk "quit" = false ∨ host.tray.menuItemOk "show" = false ∨
      host.tray.menuItemOk "hide" = false ∨ host.tray.menuOk = false) →
      (create_tray host.tray).isErr = true) ∧
    (∀ msg : String, create_tray host.tray = TrayResult.err msg →
      run host = RunOutcome.fatalExit "error while running tauri application") ∧
    (∀ b : Bool, create_tray { host.tray with trayIconBuildOk := b } = create_tray host.tray) ∧
    ((host.tray.menuItemOk "quit" = true ∧ host.tray.menuItemOk "show" = true ∧
      host.tray.menuItemOk "hide" = true ∧ host.tray.menuOk = true ∧
      host.tray.defaultWindowIcon ≠ none) →
      create_tray host.tray = TrayResult.ok trayMenu) := by
  obtain ⟨⟨mi, mOk, icon, bOk⟩, dbg, lOk⟩ := host
  refine ⟨?_, ?_, ?_, ?_⟩
  · intro h
    cases hq : mi "quit" <;> cases hs : mi "show" <;> cases hh : mi "hide" <;> cases mOk <;>
      cases icon <;> simp_all [create_tray, TrayResult.isErr]
  · intro msg hmsg
    simp only [run, hmsg]
    cases dbg <;> cases lOk <;> rfl
  · intro b
    cases hq : mi "quit" <;> cases hs : mi "show" <;> cases hh : mi "hide" <;> cases mOk <;>
      cases icon <;> simp [create_tray, hq, hs, hh]
  · rintro ⟨hq, hs, hh, hm, hicon⟩
    cases icon with
    | none => exact absurd rfl hicon
    | some i => simp_all [create_tray]

theorem create_tray_error_propagation_witness :
    (create_tray noIconFailingMenuHost).isErr = true ∧
    run { tray := noIconFailingMenuHost, debugAssertions := false, logPluginOk := true } =
      RunOutcome.fatalExit "error while running tauri application" ∧
    create_tray { okHost with trayIconBuildOk := false } = create_tray okHost ∧
    create_tray okHost = TrayResult.ok trayMenu :=
  ⟨(create_tray_error_propagation
      { tray := noIconFailingMenuHost, debugAssertions := false, logPluginOk := true }).1
      (Or.inl rfl),
   (create_tray_error_propagation
      { tray := noIconFailingMenuHost, debugAssertions := false, logPluginOk := true }).2.1
      "MenuItem quit" rfl,
   (create_tray_error_propagation
      { tray := okHost, debugAssertions := false, logPluginOk := true }).2.2.1 false,
   (create_tray_error_propagation
      { tray := okHost, debugAssertions := false, logPluginOk := true }).2.2.2
      ⟨rfl, rfl, rfl, rfl, by decide⟩⟩

/-- C6: the menu `create_tray` builds has exactly three entries, their
identifiers are "show", "hide", "quit" in that order (so the identifier set
is exactly the three stable ones), and any successful run of `create_tray`
installs exactly this menu. -/
theorem tray_menu_entries :
    trayMenu.items.map MenuItem.id = ["show", "hide", "quit"] ∧
    trayMenu.items.length = 3 ∧
    (∀ (host : TrayHost) (m : Menu), create_tray host = TrayResult.ok m → m = trayMenu) := by
  refine ⟨by decide, by decide, ?_⟩
  intro host m h
  obtain ⟨mi, mOk, icon, bOk⟩ := host
  cases hq : mi "quit" <;> cases hs : mi "show" <;> cases hh : mi "hide" <;> cases mOk <;>
    cases icon <;> simp_all [create_tray]

theorem tray_menu_entries_witness :
    trayMenu.items.map MenuItem.id = ["show", "hide", "quit"] ∧
    trayMenu = trayMenu :=
  ⟨tray_menu_entries.1, tray_menu_entries.2.2 okHost trayMenu rfl⟩

/-- C9 counterexample: a host with no default window icon on which the very
first menu-item construction fails makes `create_tray` return an error
without reaching the `unwrap`, refuting the unconditional claim that the
absence of a default window icon makes `create_tray` panic. -/
theorem no_icon_with_failed_menu_returns_err :
    noIconFailingMenuHost.defaultWindowIcon = none ∧
    create_tray noIconFailingMenuHost ≠ TrayResult.panics ∧
    create_tray noIconFailingMenuHost = TrayResult.err "MenuItem quit" := by
  exact ⟨rfl, by decide, rfl⟩

/-- C9 amended: when the four menu constructions succeed, the absence of a
default window icon makes `create_tray` panic through the unconditional
`unwrap`, instead of returning an error; so once menu construction
succeeds, non-panicking behavior requires a default window icon. -/
theorem create_tray_panics_without_icon (host : TrayHost)
    (hq : host.menuItemOk "quit" = true) (hs : host.menuItemOk "show" = true)
    (hh : host.menuItemOk "hide" = true) (hm : host.menuOk = true)
    (hicon : host.defaultWindowIcon = none) :
    create_tray host = TrayResult.panics := by
  simp [create_tray, hq, hs, hh, hm, hicon]

theorem create_tray_panics_without_icon_witness :
    create_tray { okHost with defaultWindowIcon := none } = TrayResult.panics :=
  create_tray_panics_without_icon { okHost with defaultWindowIcon := none }
    rfl rfl rfl rfl rfl

/-- Window events of `tauri::WindowEvent`, restricted to the constructors
relevant here (the handler matches only `CloseRequested`). -/
inductive WindowEvent where
  | CloseRequested
  | Focused (focused : Bool)
  | Resized
deriving DecidableEq, Repr

/-- Response of the close handler to one delivered window event:
whether `api.prevent_close()` was invoked, and the effect trace. -/
structure CloseResponse where
  preventClose : Bool
  effects : List Effect
deriving DecidableEq, Repr

/-- The `on_window_event` closure of window_handler.rs lines 12-21.
Input: the delivered event and the result of the event-time
`app_handle.get_webview_window("main")` re-lookup.  On `CloseRequested` it
always vetoes the close, then attempts one hide if the re-lookup succeeds,
logging a failed hide, and logs the close unconditionally. -/
def close_requested_handler (event : WindowEvent)
    (mainLookup : Option WindowResults) : CloseResponse :=
  match event with
  | WindowEvent.CloseRequested =>
    { preventClose := true
      effects :=
        (match mainLookup with
         | some window =>
           Effect.winOp WinOp.hide window.hideOk ::
             (if window.hideOk then []
              else [Effect.log "Window close - Failed to hide window"])
         | none => []) ++ [Effect.log "Window close - 应用已最小化到系统托盘"] }
  | _ => { preventClose := false, effects := [] }

/-- `setup_window_close_handler` of window_handler.rs lines 5-23.  Input:
the setup-time lookup of the main window.  Output: the handler registered
on the window, or `none` when the lookup fails and the function silently
returns without registering anything. -/
def setup_window_close_handler (setupLookup : Option WindowResults) :
    Option (WindowEvent → Option WindowResults → CloseResponse) :=
  match setupLookup with
  | some _ => some close_requested_handler
  | none => none

/-- Delivery of a window event given the registered handler: with no
handler registered, nothing intercepts the event and no veto happens. -/
def dispatch_window_event
    (handler : Option (WindowEvent → Option WindowResults → CloseResponse))
    (event : WindowEvent) (mainLookup : Option WindowResults) : CloseResponse :=
  match handler with
  | some h => h event mainLookup
  | none => { preventClose := false, effects := [] }

/-- C2 counterexample: a close request handled while the event-time
main-window re-lookup returns nothing is still vetoed but attempts zero
hide operations, refuting the claim that exactly one hide operation is
attempted on every close request delivered to the handler. -/
theorem close_request_zero_hides_when_lookup_fails :
    (close_requested_handler WindowEvent.CloseRequested none).preventClose = true ∧
    countHide (close_requested_handler WindowEvent.CloseRequested none).effects = 0 ∧
    ¬ countHide (close_requested_handler WindowEvent.CloseRequested none).effects = 1 := by
  exact ⟨rfl, rfl, by decide⟩

/-- C2 amended: every close request delivered to the handler is vetoed,
even when the hide call fails; the handler attempts exactly one hide when
the event-time main-window re-lookup succeeds and zero when it returns
nothing, and it never performs any other window operation. -/
theorem close_request_always_vetoed (mainLookup : Option WindowResults) :
    (close_requested_handler WindowEvent.CloseRequested mainLookup).preventClose = true ∧
    countHide (close_requested_handler WindowEvent.CloseRequested mainLookup).effects =
      (match mainLookup with | some _ => 1 | none => 0) ∧
    winOps (close_requested_handler WindowEvent.CloseRequested mainLookup).effects =
      (match mainLookup with
       | some w => [Effect.winOp WinOp.hide w.hideOk]
       | none => []) := by
  cases mainLookup with
  | none => exact ⟨rfl, rfl, rfl⟩
  | some w =>
    refine ⟨rfl, ?_, ?_⟩ <;>
      obtain ⟨s, u, f, a, hOk⟩ := w <;> cases hOk <;> rfl

/-- C10: when the setup-time main-window lookup fails,
`setup_window_close_handler` registers no handler, so no subsequent
window event of any kind is intercepted: no veto, no effects. -/
theorem no_handler_when_main_missing :
    setup_window_close_handler none = none ∧
    ∀ (event : WindowEvent) (mainLookup : Option WindowResults),
      dispatch_window_event (setup_window_close_handler none) event mainLookup =
        { preventClose := false, effects := [] } := by
  exact ⟨rfl, fun _ _ => rfl⟩

/-- The always-on-top flag dynamics induced by the show branches: a
`trigger` event is one run of the show handler (its `set_always_on_top(true)`
takes effect and one detached worker is spawned); a `workerRun` event is one
spawned worker waking after its 100 ms sleep and performing
`set_always_on_top(false)`. -/
inductive PulseEvent where
  | trigger
  | workerRun
deriving DecidableEq, Repr

def isTrigger : PulseEvent → Bool
  | PulseEvent.trigger => true
  | PulseEvent.workerRun => false

/-- Effect of one pulse event on the window's always-on-top flag. -/
def pulseStep (_onTop : Bool) : PulseEvent → Bool
  | PulseEvent.trigger => true
  | PulseEvent.workerRun => false

/-- The always-on-top flag after a schedule of pulse events. -/
def runPulse (init : Bool) (evs : List PulseEvent) : Bool :=
  evs.foldl pulseStep init

def triggerCount (evs : List PulseEvent) : Nat :=
  (evs.filter isTrigger).length

def workerCount (evs : List PulseEvent) : Nat :=
  (evs.filter (fun e => !isTrigger e)).length

/-- Whether some spawned worker runs strictly after every trigger. -/
def laterWorkerAfterEachTrigger : List PulseEvent → Bool
  | [] => true
  | PulseEvent.trigger :: rest =>
    rest.any (fun e => !isTrigger e) && laterWorkerAfterEachTrigger rest
  | PulseEvent.workerRun :: rest => laterWorkerAfterEachTrigger rest

/-- A complete schedule: every trigger spawned its own worker and all
workers have run, each strictly after its trigger's 100 ms delay. -/
def completeSchedule (evs : List PulseEvent) : Bool :=
  decide (workerCount evs = triggerCount evs) && laterWorkerAfterEachTrigger evs

lemma all_workers_ends_in_worker (evs : List PulseEvent)
    (h0 : triggerCount evs = 0) (hne : evs ≠ []) :
    ∃ l, evs = l ++ [PulseEvent.workerRun] := by
  induction evs with
  | nil => exact absurd rfl hne
  | cons e rest ih =>
    cases e with
    | trigger => simp [triggerCount, List.filter, isTrigger] at h0
    | workerRun =>
      cases rest with
      | nil => exact ⟨[], rfl⟩
      | cons r rs =>
        have h0r : triggerCount (r :: rs) = 0 := by
          simpa [triggerCount, List.filter, isTrigger] using h0
        obtain ⟨l, hl⟩ := ih h0r (by simp)
        exact ⟨PulseEvent.workerRun :: l, by rw [hl]; rfl⟩

lemma followed_schedule_ends_in_worker (evs : List PulseEvent)
    (hf : laterWorkerAfterEachTrigger evs = true) (h1 : 1 ≤ triggerCount evs) :
    ∃ l, evs = l ++ [PulseEvent.workerRun] := by
  induction evs with
  | nil => simp [triggerCount, List.filter] at h1
  | cons e rest ih =>
    cases e with
    | trigger =>
      rw [laterWorkerAfterEachTrigger, Bool.and_eq_true] at hf
      by_cases hr : 1 ≤ triggerCount rest
      · obtain ⟨l, hl⟩ := ih hf.2 hr
        exact ⟨PulseEvent.trigger :: l, by rw [hl]; rfl⟩
      · have h0 : triggerCount rest = 0 := by omega
        have hne : rest ≠ [] := by
          intro hrest
          rw [hrest] at hf
          simp [List.any] at hf
        obtain ⟨l, hl⟩ := all_workers_ends_in_worker rest h0 hne
        exact ⟨PulseEvent.trigger :: l, by rw [hl]; rfl⟩
    | workerRun =>
      have h1r : 1 ≤ triggerCount rest := by
        simpa [triggerCount, List.filter, isTrigger] using h1
      rw [laterWorkerAfterEachTrigger] at hf
      obtain ⟨l, hl⟩ := ih hf h1r
      exact ⟨PulseEvent.workerRun :: l, by rw [hl]; rfl⟩

/-- C8: every run of the show handler (menu or tray click, window found)
spawns exactly one independent delayed always-on-top-clear worker, and for
every complete schedule of triggers and worker runs with at least one
trigger, the always-on-top flag ends false whatever the trigger count, the
interleaving order, and the initial flag value. -/
theorem show_pulse_convergence :
    (∀ w : WindowResults,
      countSpawn (on_menu_event "show" (some w)) = 1 ∧
      countSpawn (on_tray_icon_event
        (TrayIconEvent.Click MouseButton.Left MouseButtonState.Up) (some w)) = 1) ∧
    (∀ (init : Bool) (evs : List PulseEvent),
      completeSchedule evs = true → 1 ≤ triggerCount evs →
      runPulse init evs = false) := by
  constructor
  · exact fun w => ⟨rfl, rfl⟩
  · intro init evs hc h1
    rw [completeSchedule, Bool.and_eq_true] at hc
    obtain ⟨l, hl⟩ := followed_schedule_ends_in_worker evs hc.2 h1
    rw [hl, runPulse, List.foldl_append]
    rfl

theorem show_pulse_convergence_witness :
    countSpawn (on_menu_event "show" (some defaultWin)) = 1 ∧
    runPulse true
      [PulseEvent.trigger, PulseEvent.trigger, PulseEvent.workerRun,
       PulseEvent.trigger, PulseEvent.workerRun, PulseEvent.workerRun] = false :=
  ⟨(show_pulse_convergence.1 defaultWin).1,
   show_pulse_convergence.2 true
     [PulseEvent.trigger, PulseEvent.trigger, PulseEvent.workerRun,
      PulseEvent.trigger, PulseEvent.workerRun, PulseEvent.workerRun]
     (by decide) (by decide)⟩

end Clipper
